import Mathlib

/-!
Verification of the MCQ generator (src/app.py): the response normalization
step of `generate_mcqs` (lines 84-114), its user-visible error messages, the
per-record render loop of the results column (lines 165-198), and the idle
check of the results column (lines 165-166).

Python values arriving from `json.loads` are modelled by the inductive `Json`;
an object is its ordered field list (Python dicts iterate in insertion order,
and objects produced by `json.loads` have distinct keys). `json.loads` itself
is an external library call, so it is modelled as a parameter
`parse : String → Option Json` (`none` = `json.JSONDecodeError`); the one fact
of it some theorems need, that the empty string is not valid JSON, is the
explicit hypothesis `RejectsEmpty`.
-/

/-- Python value produced by json.loads. Numbers are modelled as integers;
no claim depends on numeric contents. -/
inductive Json where
  | null
  | bool (b : Bool)
  | num (n : Int)
  | str (s : String)
  | arr (xs : List Json)
  | obj (fields : List (String × Json))
deriving Repr

/-- isinstance(v, list) -/
def isList : Json → Bool
  | .arr _ => true
  | _ => false

/-- isinstance(v, dict) -/
def isObj : Json → Bool
  | .obj _ => true
  | _ => false

/-- The for-loop of lines 95-98: scan the fields in iteration order and
return the first value that is itself a list (the loop breaks there). -/
def findFirstList : List (String × Json) → Option Json
  | [] => none
  | (_, v) :: rest => if isList v then some v else findFirstList rest

/-- The three failure modes of the normalization step: empty response text
(line 84), json.JSONDecodeError (line 109), and JSON of the wrong shape
(lines 100 and 104). -/
inductive NormError where
  | EmptyResponse
  | MalformedJson
  | UnexpectedShape
deriving Repr, DecidableEq

/-- Lines 93-107 of generate_mcqs, after json.loads succeeded: if the value
is a dict, replace it by its first list-valued field or fail (for-else,
lines 99-101); then check the value is a list (lines 103-105) and return it
(line 107). -/
def normalizeParsed (j : Json) : Except NormError Json :=
  match j with
  | .obj fields =>
    match findFirstList fields with
    | some v => if isList v then Except.ok v else Except.error NormError.UnexpectedShape
    | none => Except.error NormError.UnexpectedShape
  | _ => if isList j then Except.ok j else Except.error NormError.UnexpectedShape

/-- Lines 84-107 of generate_mcqs as a function of the raw response text:
the emptiness check of line 84 (Python truthiness of a str: falsy iff empty),
then json.loads (the `parse` parameter), then `normalizeParsed`. -/
def normalizeResponse (parse : String → Option Json) (s : String) :
    Except NormError Json :=
  if s = "" then Except.error NormError.EmptyResponse
  else
    match parse s with
    | none => Except.error NormError.MalformedJson
    | some j => normalizeParsed j

/-- json.loads raises on the empty string: the empty string is not JSON. -/
def RejectsEmpty (parse : String → Option Json) : Prop :=
  parse "" = none

/-- The st.error text emitted on each normalization failure path
(lines 85, 110, 100/104). Apostrophes of the original text are elided. -/
def errorMessage (text : String) : NormError → String
  | .EmptyResponse => "API returned a successful but empty response."
  | .MalformedJson =>
      "Failed to decode the API JSON response. The model might not be following the schema. Response text: " ++ text
  | .UnexpectedShape =>
      "The API returned JSON, but not in the expected array format. Please try again."

/-- Outcome of the external steps of generate_mcqs that precede
normalization: genai.configure may raise (lines 42-46), the
model.generate_content call may raise (lines 112-114), or it returns
response text. -/
inductive ApiOutcome where
  | configError (msg : String)
  | apiError (msg : String)
  | success (text : String)

/-- Result of one call to generate_mcqs: the returned Python value
(None or the list) together with the st.error messages emitted. -/
structure GenOutcome where
  result : Option Json
  messages : List String
deriving Repr

/-- generate_mcqs (lines 42-114): each failure path emits an st.error
message and returns None; on success the normalized list is returned with
no message. -/
def generate_mcqs (parse : String → Option Json) : ApiOutcome → GenOutcome
  | .configError e => ⟨none, ["Failed to configure Gemini client: " ++ e]⟩
  | .apiError e => ⟨none, ["An unexpected error occurred while calling the Gemini API: " ++ e]⟩
  | .success text =>
    match normalizeResponse parse text with
    | .ok v => ⟨some v, []⟩
    | .error e => ⟨none, [errorMessage text e]⟩

/-! Helper lemmas about findFirstList. -/

theorem findFirstList_isList {fields : List (String × Json)} {v : Json}
    (h : findFirstList fields = some v) : isList v = true := by
  induction fields with
  | nil => simp [findFirstList] at h
  | cons kv rest ih =>
    by_cases hkv : isList kv.2
    · simp [findFirstList, hkv] at h
      simpa [← h] using hkv
    · simp [findFirstList, hkv] at h
      exact ih h

theorem findFirstList_eq_find {fields : List (String × Json)} :
    findFirstList fields = (fields.find? fun kv => isList kv.2).map Prod.snd := by
  induction fields with
  | nil => simp [findFirstList]
  | cons kv rest ih =>
    by_cases hkv : isList kv.2
    · simp [findFirstList, List.find?, hkv]
    · simp [findFirstList, List.find?, hkv, ih]

theorem findFirstList_eq_none_iff {fields : List (String × Json)} :
    findFirstList fields = none ↔ fields.all (fun kv => !isList kv.2) = true := by
  induction fields with
  | nil => simp [findFirstList]
  | cons kv rest ih =>
    by_cases hkv : isList kv.2 <;> simp [findFirstList, hkv, ih]

/-! The results column (col2, lines 162-198). -/

/-- Python len(v) where defined: lists, strings and dicts support len;
on other values len raises TypeError (modelled as none). -/
def pyLen : Json → Option Nat
  | .arr xs => some xs.length
  | .str s => some s.length
  | .obj fields => some fields.length
  | _ => none

/-- Python truthiness of a JSON-shaped value: None and empty containers are
falsy, a number is falsy iff zero. -/
def pyTruthy : Json → Bool
  | .null => false
  | .bool b => b
  | .num n => n != 0
  | .str s => s ≠ ""
  | .arr xs => !xs.isEmpty
  | .obj fields => !fields.isEmpty

/-- Outcome of one iteration of the display loop body for one record
(lines 170-198). The try block either renders the record fully
(`ok`: question written, radio shown, answer expander shown), warns and
continues on a wrong option count (lines 176-178), reports a KeyError
(lines 195-196), or reports any other exception (lines 197-198). -/
inductive RecordResult where
  | ok (question options answer : Json)
  | skipped
  | missingKeyError (key : String)
  | otherError
deriving Repr

/-- One iteration of the loop body: subscripting a non-dict raises TypeError
(caught by the generic except); a dict without the key raises KeyError;
mcq.get with default (line 175) never raises; len of a non-sized value
raises TypeError. -/
def renderRecord (mcq : Json) : RecordResult :=
  match mcq with
  | .obj fields =>
    match fields.lookup "question" with
    | none => .missingKeyError "question"
    | some q =>
      let optionsList := (fields.lookup "options").getD (Json.arr [])
      match pyLen optionsList with
      | none => .otherError
      | some n =>
        if n ≠ 4 then .skipped
        else
          match fields.lookup "answer" with
          | none => .missingKeyError "answer"
          | some a => .ok q optionsList a
  | _ => .otherError

/-- The whole display loop: the try/except sits inside the for, so each
record is processed independently and no exception leaves the loop. -/
def renderBatch (batch : List Json) : List RecordResult :=
  batch.map renderRecord

/-- true when the loop body emitted a per-record st.warning or st.error for
this record (lines 177, 196, 198). -/
def emitsReport : RecordResult → Bool
  | .ok _ _ _ => false
  | _ => true

/-- true when the record was rendered in full (question, options, answer). -/
def isRendered : RecordResult → Bool
  | .ok _ _ _ => true
  | _ => false

/-- What col2 shows: the idle st.info hint, the rendered batch, or an
uncaught TypeError when enumerate is handed a non-iterable. -/
inductive Col2View where
  | idleInfo
  | display (outcomes : List RecordResult)
  | crash
deriving Repr

/-- Python iteration for enumerate: lists yield elements, strings yield
one-character strings, dicts yield their keys; other values raise. -/
def pyIter : Json → Option (List Json)
  | .arr xs => some xs
  | .str s => some (s.toList.map fun c => Json.str (String.singleton c))
  | .obj fields => some (fields.map fun kv => Json.str kv.1)
  | _ => none

/-- Lines 165-198: the session state either has no mcq_list key (outer
none), or stores the value generate_mcqs returned (None or a list). The
guard of line 165 shows the idle hint when the key is absent or the stored
value is falsy; otherwise the loop runs over the stored value. -/
def col2View : Option (Option Json) → Col2View
  | none => .idleInfo
  | some none => .idleInfo
  | some (some v) =>
    if pyTruthy v then
      match pyIter v with
      | some records => .display (renderBatch records)
      | none => .crash
    else .idleInfo

/-! Claim theorems. -/

/-- C1: for every raw response string that parses as a JSON array, the
normalization step of generate_mcqs returns that array unchanged, with no
per-item validation (the elements xs are arbitrary). -/
theorem C1_normalizer_returns_array_unchanged
    (parse : String → Option Json) (hp : RejectsEmpty parse)
    (s : String) (xs : List Json) (h : parse s = some (Json.arr xs)) :
    normalizeResponse parse s = Except.ok (Json.arr xs) := by
  have hs : s ≠ "" := by
    intro he
    rw [he, hp] at h
    exact Option.noConfusion h
  simp [normalizeResponse, hs, h, normalizeParsed, isList]

/-- Witness for C1 at a concrete parse function and input, with an element
that is not MCQ-shaped. -/
theorem C1_witness :
    normalizeResponse
      (fun s => if s = "[1]" then some (Json.arr [Json.num 1]) else none) "[1]"
      = Except.ok (Json.arr [Json.num 1]) :=
  C1_normalizer_returns_array_unchanged
    (fun s => if s = "[1]" then some (Json.arr [Json.num 1]) else none)
    rfl "[1]" [Json.num 1] rfl

/-- C2: for a response that parses as a JSON object with at least one
list-valued field, the normalizer returns the value of the first list-valued
field in the field iteration order (List.find? over the ordered fields). -/
theorem C2_normalizer_extracts_first_list_field
    (parse : String → Option Json) (hp : RejectsEmpty parse)
    (s : String) (fields : List (String × Json)) (k : String) (v : Json)
    (hobj : parse s = some (Json.obj fields))
    (hfind : fields.find? (fun kv => isList kv.2) = some (k, v)) :
    normalizeResponse parse s = Except.ok v := by
  have hs : s ≠ "" := by
    intro he
    rw [he, hp] at hobj
    exact Option.noConfusion hobj
  have hfl : findFirstList fields = some v := by
    rw [findFirstList_eq_find, hfind]
    rfl
  have hlist : isList v = true := findFirstList_isList hfl
  simp [normalizeResponse, hs, hobj, normalizeParsed, hfl, hlist]

/-- Witness for C2: an object whose second field is the first list-valued
one; the value of that field (the empty list), not the later list, comes
back. -/
theorem C2_witness :
    normalizeResponse
      (fun s =>
        if s = "o" then
          some (Json.obj
            [("meta", Json.str "m"), ("questions", Json.arr []),
             ("extra", Json.arr [Json.num 1])])
        else none) "o"
      = Except.ok (Json.arr []) :=
  C2_normalizer_extracts_first_list_field
    (fun s =>
      if s = "o" then
        some (Json.obj
          [("meta", Json.str "m"), ("questions", Json.arr []),
           ("extra", Json.arr [Json.num 1])])
      else none)
    rfl "o"
    [("meta", Json.str "m"), ("questions", Json.arr []),
     ("extra", Json.arr [Json.num 1])]
    "questions" (Json.arr []) rfl rfl

/-- C3: the normalizer fails with UnexpectedShape exactly when the input
parses as JSON and the parsed value is an object all of whose fields are
non-lists, or a value that is neither a list nor an object; being an
Except.error, such a run returns no list. -/
theorem C3_unexpected_shape_iff
    (parse : String → Option Json) (hp : RejectsEmpty parse) (s : String) :
    normalizeResponse parse s = Except.error NormError.UnexpectedShape ↔
      ∃ j, parse s = some j ∧
        ((∃ fields, j = Json.obj fields ∧
            fields.all (fun kv => !isList kv.2) = true) ∨
          (isList j = false ∧ isObj j = false)) := by
  by_cases hs : s = ""
  · subst hs
    have hp' : parse "" = none := hp
    simp [normalizeResponse, hp']
  · cases hparse : parse s with
    | none => simp [normalizeResponse, hs, hparse]
    | some j =>
      cases j with
      | arr xs => simp [normalizeResponse, hs, hparse, normalizeParsed, isList, isObj]
      | obj fields =>
        cases hfl : findFirstList fields with
        | none =>
          have hall := findFirstList_eq_none_iff.mp hfl
          rw [List.all_eq_true] at hall
          simp [normalizeResponse, hs, hparse, normalizeParsed, hfl, isObj]
          intro a b hmem
          have hab := hall (a, b) hmem
          simpa using hab
        | some v =>
          have hlist := findFirstList_isList hfl
          simp [normalizeResponse, hs, hparse, normalizeParsed, hfl, hlist, isObj]
          rw [findFirstList_eq_find] at hfl
          cases hfind : fields.find? (fun kv => isList kv.2) with
          | none =>
            rw [hfind] at hfl
            exact Option.noConfusion hfl
          | some kv =>
            have hmem := List.mem_of_find?_eq_some hfind
            have hpkv := List.find?_some hfind
            exact ⟨kv.1, kv.2, by simpa using hmem, by simpa using hpkv⟩
      | null => simp [normalizeResponse, hs, hparse, normalizeParsed, isList, isObj]
      | bool b => simp [normalizeResponse, hs, hparse, normalizeParsed, isList, isObj]
      | num n => simp [normalizeResponse, hs, hparse, normalizeParsed, isList, isObj]
      | str t => simp [normalizeResponse, hs, hparse, normalizeParsed, isList, isObj]

/-- Witness for C3: an object with a single string-valued field makes the
normalizer fail with UnexpectedShape. -/
theorem C3_witness :
    normalizeResponse
      (fun s => if s = "o" then some (Json.obj [("a", Json.str "b")]) else none) "o"
      = Except.error NormError.UnexpectedShape :=
  (C3_unexpected_shape_iff
      (fun s => if s = "o" then some (Json.obj [("a", Json.str "b")]) else none)
      rfl "o").mpr
    ⟨Json.obj [("a", Json.str "b")], rfl,
      Or.inl ⟨[("a", Json.str "b")], rfl, rfl⟩⟩

/-- C4: for the empty input string the normalizer fails with EmptyResponse;
the parse function is never consulted (the theorem holds for every parse,
even one that would parse the empty string). -/
theorem C4_empty_response (parse : String → Option Json) :
    normalizeResponse parse "" = Except.error NormError.EmptyResponse := by
  simp [normalizeResponse]

/-- Witness for C4 at a parse function that would even accept the empty
string as a JSON array: it is not asked. -/
theorem C4_witness :
    normalizeResponse (fun _ => some (Json.arr [Json.num 1])) ""
      = Except.error NormError.EmptyResponse :=
  C4_empty_response (fun _ => some (Json.arr [Json.num 1]))

/-- C5: every non-empty input string that does not parse as JSON makes the
normalizer fail with MalformedJson, returning no list. -/
theorem C5_malformed_json (parse : String → Option Json) (s : String)
    (hne : s ≠ "") (h : parse s = none) :
    normalizeResponse parse s = Except.error NormError.MalformedJson := by
  simp [normalizeResponse, hne, h]

/-- Witness for C5 at the input of the spec scenario. -/
theorem C5_witness :
    normalizeResponse (fun _ => none) "not json"
      = Except.error NormError.MalformedJson :=
  C5_malformed_json (fun _ => none) "not json" (by decide) rfl

/-! Helper lemmas about the display loop. -/

theorem emitsReport_eq_not_isRendered (r : RecordResult) :
    emitsReport r = !isRendered r := by
  cases r <;> rfl

theorem renderRecord_skipped_of_bad_options {fields : List (String × Json)}
    {q : Json} {xs : List Json}
    (hq : fields.lookup "question" = some q)
    (hopts : (fields.lookup "options").getD (Json.arr []) = Json.arr xs)
    (hlen : xs.length ≠ 4) :
    renderRecord (Json.obj fields) = RecordResult.skipped := by
  simp [renderRecord, hq, hopts, pyLen, hlen]

theorem isRendered_false_of_missing_key {fields : List (String × Json)}
    (hmiss : fields.lookup "question" = none ∨ fields.lookup "answer" = none) :
    isRendered (renderRecord (Json.obj fields)) = false := by
  rcases hmiss with hq | ha
  · simp [renderRecord, hq, isRendered]
  · cases hq : fields.lookup "question" with
    | none => simp [renderRecord, hq, isRendered]
    | some q =>
      cases hl : pyLen ((fields.lookup "options").getD (Json.arr [])) with
      | none => simp [renderRecord, hq, hl, isRendered]
      | some n =>
        by_cases hn : n = 4
        · subst hn
          simp [renderRecord, hq, hl, ha, isRendered]
        · simp [renderRecord, hq, hl, hn, isRendered]

/-- C6: a record that reaches the option-count check with an options list
that does not have exactly 4 entries is skipped with a per-record report,
and every other record of the batch still gets its own outcome: the loop is
a per-record map, so one bad record never aborts the batch. -/
theorem C6_bad_option_count_skipped_nonfatal
    (batch : List Json) (i : Nat) (fields : List (String × Json))
    (q : Json) (xs : List Json)
    (hget : batch[i]? = some (Json.obj fields))
    (hq : fields.lookup "question" = some q)
    (hopts : (fields.lookup "options").getD (Json.arr []) = Json.arr xs)
    (hlen : xs.length ≠ 4) :
    (renderBatch batch)[i]? = some RecordResult.skipped ∧
    emitsReport RecordResult.skipped = true ∧
    ∀ j : Nat, (renderBatch batch)[j]? = batch[j]?.map renderRecord := by
  have hrr := renderRecord_skipped_of_bad_options hq hopts hlen
  refine ⟨?_, rfl, ?_⟩
  · simp [renderBatch, List.getElem?_map, hget, hrr]
  · intro j
    simp [renderBatch, List.getElem?_map]

/-- Witness for C6: the spec scenario, a 3-option record followed by a
4-option record; the first is skipped, the second still rendered. -/
theorem C6_witness :
    (renderBatch
        [Json.obj [("question", Json.str "Q1"),
           ("options", Json.arr [Json.str "A", Json.str "B", Json.str "C"]),
           ("answer", Json.str "A")],
         Json.obj [("question", Json.str "Q2"),
           ("options", Json.arr [Json.str "A", Json.str "B", Json.str "C", Json.str "D"]),
           ("answer", Json.str "D")]])[0]?
      = some RecordResult.skipped ∧
    (renderBatch
        [Json.obj [("question", Json.str "Q1"),
           ("options", Json.arr [Json.str "A", Json.str "B", Json.str "C"]),
           ("answer", Json.str "A")],
         Json.obj [("question", Json.str "Q2"),
           ("options", Json.arr [Json.str "A", Json.str "B", Json.str "C", Json.str "D"]),
           ("answer", Json.str "D")]])[1]?
      = some (RecordResult.ok (Json.str "Q2")
          (Json.arr [Json.str "A", Json.str "B", Json.str "C", Json.str "D"])
          (Json.str "D")) := by
  have h := C6_bad_option_count_skipped_nonfatal
    [Json.obj [("question", Json.str "Q1"),
       ("options", Json.arr [Json.str "A", Json.str "B", Json.str "C"]),
       ("answer", Json.str "A")],
     Json.obj [("question", Json.str "Q2"),
       ("options", Json.arr [Json.str "A", Json.str "B", Json.str "C", Json.str "D"]),
       ("answer", Json.str "D")]]
    0
    [("question", Json.str "Q1"),
     ("options", Json.arr [Json.str "A", Json.str "B", Json.str "C"]),
     ("answer", Json.str "A")]
    (Json.str "Q1") [Json.str "A", Json.str "B", Json.str "C"]
    rfl rfl rfl (by decide)
  refine ⟨h.1, ?_⟩
  rw [h.2.2 1]
  rfl

/-- C7: a record that is an object missing its question or answer key is
never rendered in full, a per-record report is emitted for it, and the rest
of the batch is processed record by record regardless. -/
theorem C7_missing_key_reported_nonfatal
    (batch : List Json) (i : Nat) (fields : List (String × Json))
    (hget : batch[i]? = some (Json.obj fields))
    (hmiss : fields.lookup "question" = none ∨ fields.lookup "answer" = none) :
    (renderBatch batch)[i]? = some (renderRecord (Json.obj fields)) ∧
    emitsReport (renderRecord (Json.obj fields)) = true ∧
    isRendered (renderRecord (Json.obj fields)) = false ∧
    ∀ j : Nat, (renderBatch batch)[j]? = batch[j]?.map renderRecord := by
  have hrend := isRendered_false_of_missing_key hmiss
  refine ⟨?_, ?_, hrend, ?_⟩
  · simp [renderBatch, List.getElem?_map, hget]
  · rw [emitsReport_eq_not_isRendered, hrend]
    rfl
  · intro j
    simp [renderBatch, List.getElem?_map]

/-- Witness for C7: a record with four options but no answer key gets a
per-record report (a KeyError display error) and the following record is
still processed. -/
theorem C7_witness :
    emitsReport (renderRecord (Json.obj
        [("question", Json.str "Q1"),
         ("options", Json.arr [Json.str "A", Json.str "B", Json.str "C", Json.str "D"])]))
      = true ∧
    isRendered (renderRecord (Json.obj
        [("question", Json.str "Q1"),
         ("options", Json.arr [Json.str "A", Json.str "B", Json.str "C", Json.str "D"])]))
      = false ∧
    (renderBatch
        [Json.obj [("question", Json.str "Q1"),
           ("options", Json.arr [Json.str "A", Json.str "B", Json.str "C", Json.str "D"])],
         Json.obj [("question", Json.str "Q2"),
           ("options", Json.arr [Json.str "A", Json.str "B", Json.str "C", Json.str "D"]),
           ("answer", Json.str "D")]])[1]?
      = ([Json.obj [("question", Json.str "Q1"),
            ("options", Json.arr [Json.str "A", Json.str "B", Json.str "C", Json.str "D"])],
          Json.obj [("question", Json.str "Q2"),
            ("options", Json.arr [Json.str "A", Json.str "B", Json.str "C", Json.str "D"]),
            ("answer", Json.str "D")]])[1]?.map renderRecord := by
  have h := C7_missing_key_reported_nonfatal
    [Json.obj [("question", Json.str "Q1"),
       ("options", Json.arr [Json.str "A", Json.str "B", Json.str "C", Json.str "D"])],
     Json.obj [("question", Json.str "Q2"),
       ("options", Json.arr [Json.str "A", Json.str "B", Json.str "C", Json.str "D"]),
       ("answer", Json.str "D")]]
    0
    [("question", Json.str "Q1"),
     ("options", Json.arr [Json.str "A", Json.str "B", Json.str "C", Json.str "D"])]
    rfl (Or.inr rfl)
  exact ⟨h.2.1, h.2.2.1, h.2.2.2 1⟩

/-! Helper lemmas about the shape of successful normalizations. -/

theorem normalizeParsed_ok_isList {j v : Json}
    (h : normalizeParsed j = Except.ok v) : isList v = true := by
  cases j with
  | obj fields =>
    cases hfl : findFirstList fields with
    | none => simp [normalizeParsed, hfl] at h
    | some w =>
      have hw := findFirstList_isList hfl
      simp [normalizeParsed, hfl, hw] at h
      rw [← h]
      exact hw
  | arr xs =>
    simp [normalizeParsed, isList] at h
    rw [← h]
    rfl
  | null => simp [normalizeParsed, isList] at h
  | bool b => simp [normalizeParsed, isList] at h
  | num n => simp [normalizeParsed, isList] at h
  | str t => simp [normalizeParsed, isList] at h

theorem normalizeResponse_ok_isList {parse : String → Option Json}
    {s : String} {v : Json}
    (h : normalizeResponse parse s = Except.ok v) : isList v = true := by
  by_cases hs : s = ""
  · simp [normalizeResponse, hs] at h
  · cases hp : parse s with
    | none => simp [normalizeResponse, hs, hp] at h
    | some j =>
      have hj : normalizeParsed j = Except.ok v := by
        simpa [normalizeResponse, hs, hp] using h
      exact normalizeParsed_ok_isList hj

/-- C8: generate_mcqs never fails silently: on every path on which it
returns None, at least one user-visible st.error message was emitted. -/
theorem C8_no_silent_failure (parse : String → Option Json) (o : ApiOutcome)
    (h : (generate_mcqs parse o).result = none) :
    (generate_mcqs parse o).messages ≠ [] := by
  cases o with
  | configError e => simp [generate_mcqs]
  | apiError e => simp [generate_mcqs]
  | success text =>
    cases hn : normalizeResponse parse text with
    | ok v => simp [generate_mcqs, hn] at h
    | error e => simp [generate_mcqs, hn]

/-- Witness for C8: a response that is not JSON yields None together with a
non-empty message list. -/
theorem C8_witness :
    ((generate_mcqs (fun _ => none) (ApiOutcome.success "not json")).messages : List String) ≠ [] :=
  C8_no_silent_failure (fun _ => none) (ApiOutcome.success "not json") rfl

/-- C9: whenever generate_mcqs returns a non-None value, that value is a
list; nothing constrains its elements (they are whatever list the normalizer
extracted, with no per-item validation). -/
theorem C9_result_always_list (parse : String → Option Json) (o : ApiOutcome)
    (v : Json) (h : (generate_mcqs parse o).result = some v) :
    ∃ xs, v = Json.arr xs := by
  cases o with
  | configError e => simp [generate_mcqs] at h
  | apiError e => simp [generate_mcqs] at h
  | success text =>
    cases hn : normalizeResponse parse text with
    | error e => simp [generate_mcqs, hn] at h
    | ok w =>
      have hw : w = v := by simpa [generate_mcqs, hn] using h
      subst hw
      have hl := normalizeResponse_ok_isList hn
      cases w with
      | arr xs => exact ⟨xs, rfl⟩
      | null => simp [isList] at hl
      | bool b => simp [isList] at hl
      | num n => simp [isList] at hl
      | str t => simp [isList] at hl
      | obj fields => simp [isList] at hl

/-- Witness for C9: the object-extraction case returns a list whose items
are not MCQ-shaped at all, and the result is still that list. -/
theorem C9_witness :
    ∃ xs, Json.arr [Json.num 7, Json.str "x"] = Json.arr xs :=
  C9_result_always_list
    (fun _ => some (Json.obj
      [("meta", Json.null), ("data", Json.arr [Json.num 7, Json.str "x"])]))
    (ApiOutcome.success "t") (Json.arr [Json.num 7, Json.str "x"]) rfl

/-- C10: the response text consisting of an empty JSON array is a success of
the normalizer (generate_mcqs returns the empty list and emits no message),
yet the falsy check of line 165 on the stored batch shows the same idle
st.info hint as when no generation has happened at all. -/
theorem C10_empty_array_renders_as_idle (parse : String → Option Json)
    (hp : parse "[]" = some (Json.arr [])) :
    (generate_mcqs parse (ApiOutcome.success "[]")).result = some (Json.arr []) ∧
    (generate_mcqs parse (ApiOutcome.success "[]")).messages = [] ∧
    col2View (some (generate_mcqs parse (ApiOutcome.success "[]")).result)
      = Col2View.idleInfo ∧
    col2View none = Col2View.idleInfo := by
  have hne : ("[]" : String) ≠ "" := by decide
  have hnorm : normalizeResponse parse "[]" = Except.ok (Json.arr []) := by
    simp [normalizeResponse, hne, hp, normalizeParsed, isList]
  refine ⟨?_, ?_, ?_, rfl⟩
  · simp [generate_mcqs, hnorm]
  · simp [generate_mcqs, hnorm]
  · simp [generate_mcqs, hnorm, col2View, pyTruthy]

/-- Witness for C10 at a concrete parse function mapping the text of an
empty JSON array to the empty array. -/
theorem C10_witness :
    (generate_mcqs (fun s => if s = "[]" then some (Json.arr []) else none)
        (ApiOutcome.success "[]")).result = some (Json.arr []) ∧
    (generate_mcqs (fun s => if s = "[]" then some (Json.arr []) else none)
        (ApiOutcome.success "[]")).messages = [] ∧
    col2View (some (generate_mcqs (fun s => if s = "[]" then some (Json.arr []) else none)
        (ApiOutcome.success "[]")).result) = Col2View.idleInfo ∧
    col2View none = Col2View.idleInfo :=
  C10_empty_array_renders_as_idle
    (fun s => if s = "[]" then some (Json.arr []) else none) rfl
